import Mathlib

/-!
Shallow embedding of the task-orchestration / pose-synchronization core of
`robot_service/main.py` (phosphobot repository).

Conventions of the embedding:
* machine floats become `ℚ` (the claims are about comparison/threshold logic,
  not rounding);
* the Python dict `TASKS` becomes an association list `Tasks` with
  insertion-order-preserving replace-on-assign semantics (`tasksSet`) and
  in-place record mutation (`tasksUpdate`), matching `dict` behaviour;
* the `asyncio` waiter set `POSE_WAITERS` becomes a list of `Waiter`
  records (a future id plus its completion state); `set` uniqueness is an
  explicit `Nodup` hypothesis where a claim needs it;
* downstream HTTP calls are parameters: an `InferOutcome`/`VBOutcome`
  value says how the collaborator answered, and the handler body is
  translated faithfully, including the `try/except` control flow
  (`except Exception` catches the `HTTPException`s raised inside the
  `try` body, since `HTTPException` derives from `Exception`);
* FastAPI responses become `HttpResult`: a JSON object (list of key/value
  pairs, in emission order) or an error status code plus detail string.
-/

namespace RobotService

/-- JSON values appearing in the service's responses. -/
inductive JVal where
  | str (v : String)
  | num (v : ℚ)
  | null
  deriving DecidableEq, Repr

/-- HTTP outcome of a handler: a JSON-object body, or an HTTPException
with a status code and a detail string. -/
inductive HttpResult where
  | ok (body : List (String × JVal))
  | err (code : ℕ) (detail : String)
  deriving DecidableEq, Repr

/-- Embedding of the pydantic model `DispenseRequest`. -/
structure DispenseRequest where
  mix_id : ℤ
  run_id : ℤ
  colour : String
  volume_ml : ℚ
  deriving DecidableEq, Repr

/-- Embedding of the pydantic model `DispenseStatus` (one task record):
`status`, optional `predicted_squeeze_sec`, and `created_at`. -/
structure DispenseStatus where
  status : String
  predicted_squeeze_sec : Option ℚ := none
  created_at : ℚ
  deriving DecidableEq, Repr

/-- `model_dump()` of a `DispenseStatus`: its fields as a JSON object,
in declaration order. -/
def modelDump (st : DispenseStatus) : List (String × JVal) :=
  [ ("status", JVal.str st.status)
  , ("predicted_squeeze_sec",
      match st.predicted_squeeze_sec with
      | some v => JVal.num v
      | none => JVal.null)
  , ("created_at", JVal.num st.created_at) ]

/-- The in-memory store `TASKS: dict[str, DispenseStatus]`, as an
association list in insertion order. -/
abbrev Tasks := List (String × DispenseStatus)

/-- Python `TASKS.get(key)`: first (hence, for dict-like lists, only)
binding of the key. -/
def tasksGet : Tasks → String → Option DispenseStatus
  | [], _ => none
  | (k, v) :: rest, key => if k = key then some v else tasksGet rest key

/-- Python `TASKS[key] = v`: replace the existing binding in place, or
append a new one (dicts preserve insertion order on reassignment). -/
def tasksSet : Tasks → String → DispenseStatus → Tasks
  | [], key, v => [(key, v)]
  | (k, v') :: rest, key, v =>
      if k = key then (key, v) :: rest else (k, v') :: tasksSet rest key v

/-- In-place mutation of the record stored under a key
(Python `TASKS[key].field = x`). -/
def tasksUpdate : Tasks → String → (DispenseStatus → DispenseStatus) → Tasks
  | [], _, _ => []
  | (k, v) :: rest, key, f =>
      if k = key then (k, f v) :: tasksUpdate rest key f
      else (k, v) :: tasksUpdate rest key f

/-- Task retention window `MAX_TASK_AGE = 3600` seconds. -/
def MAX_TASK_AGE : ℚ := 3600

/-- GC period `TASK_CLEANUP_INTERVAL = 300` seconds. -/
def TASK_CLEANUP_INTERVAL : ℚ := 300

/-- Pose-wait deadline passed to `asyncio.wait_for` in `pose_snapshot`:
30 seconds. -/
def POSE_WAIT_TIMEOUT : ℚ := 30

/-- Completion state of an `asyncio.Future` in the waiter set:
`fut.done()` is true exactly when the state is not `pending`. -/
inductive FutState where
  | pending
  | resolved
  | cancelled
  deriving DecidableEq, Repr

/-- One entry of `POSE_WAITERS`: a future identity plus its state. -/
structure Waiter where
  id : ℕ
  state : FutState
  deriving DecidableEq, Repr

/-- The convergence predicate `pose_close` of `robot_service/main.py`:
`all(abs(a-b) < TOL for a, b in zip(q, TARGET_POSE))`.
`TOL` and `TARGET_POSE` are process-start configuration, passed here as
parameters. -/
def pose_close (TOL : ℚ) (TARGET_POSE : List ℚ) (q : List ℚ) : Bool :=
  (q.zip TARGET_POSE).all (fun p => decide (|p.1 - p.2| < TOL))

/-- A telemetry message as consumed by `zmq_state_listener`:
an optional `joints` field and an optional `status` field. -/
structure TelemetryMsg where
  joints : Option (List ℚ)
  status : Option String
  deriving DecidableEq, Repr

/-- The waiter-broadcast block of `zmq_state_listener`, run when
`pose_close(msg["joints"])` holds: snapshot the waiter set, call
`set_result` on every not-yet-done future, then discard exactly those
futures from the set. Returns the new waiter set together with the list
of future ids that received `set_result` during this event. -/
def broadcastWaiters (ws : List Waiter) : List Waiter × List ℕ :=
  ( ws.filter (fun w => decide (w.state ≠ FutState.pending))
  , (ws.filter (fun w => decide (w.state = FutState.pending))).map Waiter.id )

/-- One iteration of the `zmq_state_listener` loop body on a received
message: drop the message if it lacks `joints`; otherwise broadcast to
waiters when the pose converges, then scan `TASKS`, transitioning every
`running` task to `success` when the message's `status` is "success".
Returns (new waiters, new tasks, ids resolved by this event). -/
def zmq_handle_message (TOL : ℚ) (TARGET_POSE : List ℚ) (msg : TelemetryMsg)
    (ws : List Waiter) (ts : Tasks) : List Waiter × Tasks × List ℕ :=
  match msg.joints with
  | none => (ws, ts, [])
  | some q =>
      let wr := if pose_close TOL TARGET_POSE q then broadcastWaiters ws else (ws, [])
      let ts' := ts.map (fun kv =>
        if kv.2.status = "running" ∧ msg.status = some "success" then
          (kv.1, { kv.2 with status := "success" })
        else kv)
      (wr.1, ts', wr.2)

/-- One sweep of `cleanup_old_tasks`: delete every task whose age exceeds
`MAX_TASK_AGE`, then discard every already-done future from the waiter
set. -/
def cleanup_old_tasks (now : ℚ) (ts : Tasks) (ws : List Waiter) :
    Tasks × List Waiter :=
  ( ts.filter (fun kv => decide (¬ now - kv.2.created_at > MAX_TASK_AGE))
  , ws.filter (fun w => decide (w.state = FutState.pending)) )

/-- Outcome of the `httpx` POST to the inference endpoint inside
`dispense`: an HTTP response (status code plus the optional
`predicted_squeeze_sec` field of its JSON body), an `httpx.TimeoutException`,
or some other raised exception with message `emsg`. -/
inductive InferOutcome where
  | response (code : ℕ) (predicted : Option ℚ)
  | timeout
  | transportError (emsg : String)
  deriving DecidableEq, Repr

/-- Validation performed by pydantic on `DispenseRequest` before the
handler body runs: `colour` must match `^(red|green|blue)$` and
`volume_ml` must satisfy `gt=0.0, le=50.0`. -/
def validRequest (req : DispenseRequest) : Bool :=
  (req.colour = "red" || req.colour = "green" || req.colour = "blue")
    && decide (0 < req.volume_ml) && decide (req.volume_ml ≤ 50)

/-- The instruction string composed by `dispense`. -/
def dispensePrompt (req : DispenseRequest) : String :=
  "Dispense " ++ toString req.volume_ml ++ " ml from the " ++ req.colour
    ++ " bottle"

/-- Body of the `dispense` handler after validation, for a fresh task id
`tid` created at time `now`, given the downstream outcome. Translated
from the source including its `try/except` structure: the
`HTTPException(502, ...)` raised on a non-200 inference response is
itself caught by the trailing `except Exception` clause (it is not an
`httpx.TimeoutException`), which marks the task failed again and
re-raises it as `HTTPException(500, "Internal error: " + str(e))`. -/
def dispense (ts : Tasks) (tid : String) (now : ℚ) (outcome : InferOutcome) :
    Tasks × HttpResult :=
  let t1 := tasksSet ts tid { status := "running", created_at := now }
  match outcome with
  | InferOutcome.response code predicted =>
      if code ≠ 200 then
        let t2 := tasksUpdate t1 tid (fun st => { st with status := "failed" })
        let t3 := tasksUpdate t2 tid (fun st => { st with status := "failed" })
        (t3, HttpResult.err 500
          ("Internal error: 502: Phosphobot error: " ++ toString code))
      else
        let t2 := tasksUpdate t1 tid
          (fun st => { st with predicted_squeeze_sec := predicted })
        match tasksGet t2 tid with
        | some st => (t2, HttpResult.ok (("cmd_id", JVal.str tid) :: modelDump st))
        | none =>
            (tasksUpdate t2 tid (fun st => { st with status := "failed" }),
             HttpResult.err 500 "Internal error: KeyError")
  | InferOutcome.timeout =>
      (tasksUpdate t1 tid (fun st => { st with status := "failed" }),
       HttpResult.err 504 "Timeout calling Phosphobot")
  | InferOutcome.transportError emsg =>
      (tasksUpdate t1 tid (fun st => { st with status := "failed" }),
       HttpResult.err 500 ("Internal error: " ++ emsg))

/-- The full `POST /robot/dispense` entry point: FastAPI/pydantic
validation happens before the handler body, rejecting invalid input with
a 422 and touching nothing; on valid input the handler body `dispense`
runs with a fresh task id. -/
def dispenseEndpoint (ts : Tasks) (tid : String) (now : ℚ)
    (req : DispenseRequest) (outcome : InferOutcome) : Tasks × HttpResult :=
  if validRequest req then dispense ts tid now outcome
  else (ts, HttpResult.err 422 "validation error")

/-- The `GET /robot/cmd_id/status` handler: look the task up, 404 when
absent, otherwise `model_dump()` of the record. -/
def statusHandler (ts : Tasks) (cmd_id : String) : HttpResult :=
  match tasksGet ts cmd_id with
  | none => HttpResult.err 404 ("Task " ++ cmd_id ++ " not found")
  | some st => HttpResult.ok (modelDump st)

/-- Outcome of the `httpx` POST to the Vision-Bridge `/snapshot` endpoint
inside `pose_snapshot`. -/
inductive VBOutcome where
  | response (code : ℕ) (body : List (String × JVal))
  | timeout
  | transportError (emsg : String)
  deriving DecidableEq, Repr

/-- Registration of a fresh pending future in `POSE_WAITERS`. -/
def waiterAdd (ws : List Waiter) (fid : ℕ) : List Waiter :=
  { id := fid, state := FutState.pending } :: ws

/-- Python `POSE_WAITERS.discard(fut)`. -/
def waiterDiscard (ws : List Waiter) (fid : ℕ) : List Waiter :=
  ws.filter (fun w => decide (w.id ≠ fid))

/-- Semantics of `asyncio.wait_for(fut, timeout)` started at time `t0`:
if the future is resolved at some time `t` strictly before the deadline
the wait returns at `t`; otherwise a `TimeoutError` is raised exactly
when the deadline `t0 + timeout` elapses. The result carries the time at
which the wait completed. -/
def wait_for (resolution : Option ℚ) (t0 timeout : ℚ) : Except ℚ ℚ :=
  match resolution with
  | some t => if t < t0 + timeout then Except.ok t else Except.error (t0 + timeout)
  | none => Except.error (t0 + timeout)

/-- The `GET /robot/cmd_id/pose-snapshot` handler, for a fresh future id
`fid`, wait started at `t0`, with `resolution` the time (if any) at which
a convergent telemetry event resolved the future, and `vb` the Vision-
Bridge outcome. Returns the final waiter set, the HTTP result, and the
time at which the wait phase ended. Translated from the source including
its `try/except` structure: the 408 timeout path removes the waiter (in
the `except` clause and again in `finally`); the `HTTPException(502, ...)`
raised on a non-200 Vision-Bridge response is caught by the trailing
`except Exception` and re-raised as a 500. The handler never reads or
writes `TASKS` and never uses `cmd_id` other than forwarding it. -/
def pose_snapshot (ws : List Waiter) (fid : ℕ) (t0 : ℚ)
    (resolution : Option ℚ) (vb : VBOutcome) :
    List Waiter × HttpResult × ℚ :=
  let ws1 := waiterAdd ws fid
  match wait_for resolution t0 POSE_WAIT_TIMEOUT with
  | Except.error tTimeout =>
      (waiterDiscard (waiterDiscard ws1 fid) fid,
       HttpResult.err 408 "Timeout waiting for target pose", tTimeout)
  | Except.ok tDone =>
      let ws2 := waiterDiscard ws1 fid
      match vb with
      | VBOutcome.response code body =>
          if code ≠ 200 then
            (ws2, HttpResult.err 500
              ("Vision bridge error: 502: Vision bridge error: " ++ toString code),
             tDone)
          else (ws2, HttpResult.ok body, tDone)
      | VBOutcome.timeout =>
          (ws2, HttpResult.err 504 "Timeout calling vision bridge", tDone)
      | VBOutcome.transportError emsg =>
          (ws2, HttpResult.err 500 ("Vision bridge error: " ++ emsg), tDone)

/-- The whole mutable server state: the task registry and the waiter
set. -/
structure ServerState where
  tasks : Tasks
  waiters : List Waiter
  deriving DecidableEq, Repr

/-- `pose_snapshot` acting on the whole server state: its body mentions
only `POSE_WAITERS`, never `TASKS`. -/
def pose_snapshotS (s : ServerState) (fid : ℕ) (t0 : ℚ)
    (resolution : Option ℚ) (vb : VBOutcome) :
    ServerState × HttpResult × ℚ :=
  let r := pose_snapshot s.waiters fid t0 resolution vb
  ({ s with waiters := r.1 }, r.2.1, r.2.2)

/-! ### Registry lemmas -/

/-- Looking up a key right after assigning it yields the assigned record. -/
theorem tasksGet_tasksSet_self (ts : Tasks) (key : String) (v : DispenseStatus) :
    tasksGet (tasksSet ts key v) key = some v := by
  induction ts with
  | nil => simp [tasksSet, tasksGet]
  | cons kv rest ih =>
      obtain ⟨k, v'⟩ := kv
      by_cases hk : k = key <;> simp [tasksSet, tasksGet, hk, ih]

/-- In-place mutation of a key's record is a `map` over its lookup. -/
theorem tasksGet_tasksUpdate_self (ts : Tasks) (key : String)
    (f : DispenseStatus → DispenseStatus) :
    tasksGet (tasksUpdate ts key f) key = (tasksGet ts key).map f := by
  induction ts with
  | nil => simp [tasksUpdate, tasksGet]
  | cons kv rest ih =>
      obtain ⟨k, v⟩ := kv
      by_cases hk : k = key
      · subst hk
        simp [tasksUpdate, tasksGet]
      · simp [tasksUpdate, tasksGet, hk, ih]

/-- A key is absent exactly when it is not among the stored keys. -/
theorem tasksGet_eq_none_iff (ts : Tasks) (key : String) :
    tasksGet ts key = none ↔ key ∉ ts.map Prod.fst := by
  induction ts with
  | nil => simp [tasksGet]
  | cons kv rest ih =>
      obtain ⟨k, v⟩ := kv
      by_cases hk : k = key
      · subst hk
        simp [tasksGet]
      · have hk' : ¬ key = k := fun h => hk h.symm
        simp [tasksGet, hk, hk', ih]

/-- With duplicate-free keys (the dict invariant), filtering out the
record stored under a key makes that key's lookup come back empty. -/
theorem tasksGet_filter_none (ts : Tasks) (key : String) (v : DispenseStatus)
    (p : String × DispenseStatus → Bool)
    (hnd : (ts.map Prod.fst).Nodup) (hget : tasksGet ts key = some v)
    (hp : p (key, v) = false) :
    tasksGet (ts.filter p) key = none := by
  induction ts with
  | nil => simp [tasksGet] at hget
  | cons kv rest ih =>
      obtain ⟨k, v'⟩ := kv
      simp only [List.map_cons, List.nodup_cons] at hnd
      by_cases hk : k = key
      · subst hk
        simp only [tasksGet, if_pos rfl] at hget
        obtain rfl : v' = v := by injection hget
        simp only [List.filter_cons, hp, Bool.false_eq_true, if_false]
        rw [tasksGet_eq_none_iff]
        intro hmem
        rw [List.mem_map] at hmem
        obtain ⟨x, hin, hfst⟩ := hmem
        exact hnd.1 (List.mem_map.mpr ⟨x, List.mem_of_mem_filter hin, hfst⟩)
      · simp only [tasksGet, if_neg hk] at hget
        rw [List.filter_cons]
        by_cases hpk : p (k, v') = true
        · rw [if_pos hpk]
          simp only [tasksGet, if_neg hk]
          exact ih hnd.2 hget
        · rw [if_neg hpk]
          exact ih hnd.2 hget

/-! ### Convergence predicate -/

/-- Helper: for a joint vector no longer than the target, `pose_close`
is the componentwise strict-tolerance test over the vector's own
indices. -/
theorem pose_close_iff_forall (TOL : ℚ) (TARGET_POSE q : List ℚ)
    (h : q.length ≤ TARGET_POSE.length) :
    pose_close TOL TARGET_POSE q = true ↔
      ∀ (i : ℕ) (hi : i < q.length),
        |q.get ⟨i, hi⟩ - TARGET_POSE.get ⟨i, Nat.lt_of_lt_of_le hi h⟩| < TOL := by
  unfold pose_close
  rw [List.all_eq_true]
  constructor
  · intro H i hi
    have hlen : (q.zip TARGET_POSE).length = min q.length TARGET_POSE.length :=
      List.length_zip _ _
    have hz : i < (q.zip TARGET_POSE).length := by omega
    have hmem : (q.zip TARGET_POSE).get ⟨i, hz⟩ ∈ q.zip TARGET_POSE :=
      List.get_mem _ _ _
    have hx := H _ hmem
    rw [List.get_zip] at hx
    simpa using hx
  · intro H x hx
    obtain ⟨i, rfl⟩ := List.mem_iff_get.mp hx
    rw [List.get_zip]
    have hlen : (q.zip TARGET_POSE).length = min q.length TARGET_POSE.length :=
      List.length_zip _ _
    have hilt := i.isLt
    have hi : (i : ℕ) < q.length := by omega
    simpa using H i hi

/-- C3: the convergence predicate holds iff every component of `q`
differs from the corresponding target component by strictly less than
the tolerance (componentwise), and a component exactly equal to
`target[i] + tolerance` rules convergence out. -/
theorem pose_close_componentwise_strict (TOL : ℚ) (TARGET_POSE q : List ℚ)
    (h : q.length = TARGET_POSE.length) :
    (pose_close TOL TARGET_POSE q = true ↔
      ∀ (i : ℕ) (hi : i < q.length),
        |q.get ⟨i, hi⟩ - TARGET_POSE.get ⟨i, h ▸ hi⟩| < TOL) ∧
    (∀ (i : ℕ) (hi : i < q.length),
      q.get ⟨i, hi⟩ = TARGET_POSE.get ⟨i, h ▸ hi⟩ + TOL →
      pose_close TOL TARGET_POSE q = false) := by
  have hle : q.length ≤ TARGET_POSE.length := le_of_eq h
  refine ⟨pose_close_iff_forall TOL TARGET_POSE q hle, ?_⟩
  intro i hi heq
  cases hpc : pose_close TOL TARGET_POSE q with
  | false => rfl
  | true =>
      exfalso
      have hbound := (pose_close_iff_forall TOL TARGET_POSE q hle).mp hpc i hi
      rw [heq] at hbound
      simp only [add_sub_cancel_left] at hbound
      exact absurd hbound (not_lt.mpr (le_abs_self TOL))

/-- Witness for C3 at target `[0,0]`, tolerance `1/10`: the vector
`[1/20, 1/20]` converges, and the boundary vector `[1/10, 0]` (first
component exactly `target + tolerance`) does not. -/
theorem pose_close_componentwise_strict_witness :
    pose_close (1/10) [0, 0] ([1/20, 1/20] : List ℚ) = true ∧
    pose_close (1/10) [0, 0] ([1/10, 0] : List ℚ) = false := by
  constructor
  · have hiff := (pose_close_componentwise_strict (1/10) [0, 0]
      ([1/20, 1/20] : List ℚ) rfl).1
    refine hiff.mpr ?_
    intro i hi
    have hi2 : i < 2 := by simpa using hi
    interval_cases i <;> simp <;> rw [abs_lt] <;> norm_num
  · refine (pose_close_componentwise_strict (1/10) [0, 0]
      ([1/10, 0] : List ℚ) rfl).2 0 (by norm_num) ?_
    simp

/-- C10: for a joint vector strictly shorter than the target, `zip`
truncation means only the vector's own components are tested, and the
empty joint vector always converges. -/
theorem pose_close_truncates (TOL : ℚ) (TARGET_POSE q : List ℚ)
    (h : q.length < TARGET_POSE.length) :
    (pose_close TOL TARGET_POSE q = true ↔
      ∀ (i : ℕ) (hi : i < q.length),
        |q.get ⟨i, hi⟩ - TARGET_POSE.get ⟨i, Nat.lt_trans hi h⟩| < TOL) ∧
    pose_close TOL TARGET_POSE [] = true :=
  ⟨pose_close_iff_forall TOL TARGET_POSE q (le_of_lt h), rfl⟩

/-- Witness for C10: with target `[0, 0, 5]` and tolerance `1/10`, the
two-component vector `[1/20, 1/20]` converges even though the third
target component `5` is nowhere near, and the empty vector converges. -/
theorem pose_close_truncates_witness :
    pose_close (1/10) [0, 0, 5] ([1/20, 1/20] : List ℚ) = true ∧
    pose_close (1/10) [0, 0, 5] ([] : List ℚ) = true := by
  refine ⟨?_, (pose_close_truncates (1/10) [0, 0, 5] [] (by norm_num)).2⟩
  have hiff := (pose_close_truncates (1/10) [0, 0, 5]
    ([1/20, 1/20] : List ℚ) (by norm_num)).1
  refine hiff.mpr ?_
  intro i hi
  have hi2 : i < 2 := by simpa using hi
  interval_cases i <;> simp <;> rw [abs_lt] <;> norm_num

/-! ### Dispense handler -/

/-- C2 counterexample: on a successful inference call (mocked endpoint
answering 200 with `predicted_squeeze_sec = 1.23`), the response is NOT
exactly the three fields `cmd_id`, `status`, `predicted_squeeze_sec`:
the handler returns `{"cmd_id": tid, **TASKS[tid].model_dump()}` and
`model_dump()` also emits `created_at`. -/
theorem dispense_response_not_exactly_three_fields :
    (dispense [] "abc" 0 (InferOutcome.response 200 (some (123/100)))).2 ≠
      HttpResult.ok
        [ ("cmd_id", JVal.str "abc")
        , ("status", JVal.str "running")
        , ("predicted_squeeze_sec", JVal.num (123/100)) ] := by
  simp [dispense, tasksSet, tasksUpdate, tasksGet, modelDump]

/-- C2 (amended): on a successful inference call the response carries
`cmd_id`, status `"running"`, the returned `predicted_squeeze_sec`, and
additionally the task's `created_at` timestamp; a subsequent status query
on the returned id yields the same `"running"` record with the same
predicted duration. -/
theorem dispense_success_response (ts : Tasks) (tid : String) (now p : ℚ) :
    (dispense ts tid now (InferOutcome.response 200 (some p))).2 =
      HttpResult.ok
        [ ("cmd_id", JVal.str tid)
        , ("status", JVal.str "running")
        , ("predicted_squeeze_sec", JVal.num p)
        , ("created_at", JVal.num now) ]
    ∧ statusHandler (dispense ts tid now (InferOutcome.response 200 (some p))).1 tid =
      HttpResult.ok
        [ ("status", JVal.str "running")
        , ("predicted_squeeze_sec", JVal.num p)
        , ("created_at", JVal.num now) ] := by
  have hget :
      tasksGet (dispense ts tid now (InferOutcome.response 200 (some p))).1 tid =
        some { status := "running", predicted_squeeze_sec := some p,
               created_at := now } := by
    simp [dispense, tasksGet_tasksUpdate_self, tasksGet_tasksSet_self]
  constructor
  · simp [dispense, tasksGet_tasksUpdate_self, tasksGet_tasksSet_self, modelDump]
  · simp [statusHandler, hget, modelDump]

/-- C5: every downstream inference failure (non-200 response, timeout,
or transport error) marks the task `failed` in the registry in the same
handler step that surfaces an error to the caller, so the task is never
left `running` and a later status query reports the failure. -/
theorem dispense_failure_marks_failed (ts : Tasks) (tid : String) (now : ℚ)
    (code : ℕ) (predicted : Option ℚ) (emsg : String) (hcode : code ≠ 200) :
    (tasksGet (dispense ts tid now (InferOutcome.response code predicted)).1 tid
        = some { status := "failed", created_at := now }
      ∧ (∃ c d, (dispense ts tid now (InferOutcome.response code predicted)).2
            = HttpResult.err c d)
      ∧ statusHandler (dispense ts tid now (InferOutcome.response code predicted)).1 tid
        = HttpResult.ok (modelDump { status := "failed", created_at := now }))
    ∧ (tasksGet (dispense ts tid now InferOutcome.timeout).1 tid
        = some { status := "failed", created_at := now }
      ∧ (∃ c d, (dispense ts tid now InferOutcome.timeout).2 = HttpResult.err c d)
      ∧ statusHandler (dispense ts tid now InferOutcome.timeout).1 tid
        = HttpResult.ok (modelDump { status := "failed", created_at := now }))
    ∧ (tasksGet (dispense ts tid now (InferOutcome.transportError emsg)).1 tid
        = some { status := "failed", created_at := now }
      ∧ (∃ c d, (dispense ts tid now (InferOutcome.transportError emsg)).2
            = HttpResult.err c d)
      ∧ statusHandler (dispense ts tid now (InferOutcome.transportError emsg)).1 tid
        = HttpResult.ok (modelDump { status := "failed", created_at := now })) := by
  have h1 : tasksGet (dispense ts tid now (InferOutcome.response code predicted)).1 tid
      = some { status := "failed", created_at := now } := by
    simp [dispense, hcode, tasksGet_tasksUpdate_self, tasksGet_tasksSet_self]
  have h2 : tasksGet (dispense ts tid now InferOutcome.timeout).1 tid
      = some { status := "failed", created_at := now } := by
    simp [dispense, tasksGet_tasksUpdate_self, tasksGet_tasksSet_self]
  have h3 : tasksGet (dispense ts tid now (InferOutcome.transportError emsg)).1 tid
      = some { status := "failed", created_at := now } := by
    simp [dispense, tasksGet_tasksUpdate_self, tasksGet_tasksSet_self]
  refine ⟨⟨h1, ⟨500, "Internal error: 502: Phosphobot error: " ++ toString code, ?_⟩,
            by simp [statusHandler, h1]⟩,
          ⟨h2, ⟨504, "Timeout calling Phosphobot", ?_⟩,
            by simp [statusHandler, h2]⟩,
          ⟨h3, ⟨500, "Internal error: " ++ emsg, ?_⟩,
            by simp [statusHandler, h3]⟩⟩
  · simp [dispense, hcode]
  · simp [dispense]
  · simp [dispense]

/-- Witness for C5 at a concrete failing input: inference answers HTTP
503 for task id "abc" created at time 0 over an empty registry. -/
theorem dispense_failure_marks_failed_witness :
    tasksGet (dispense [] "abc" 0 (InferOutcome.response 503 none)).1 "abc"
        = some { status := "failed", created_at := 0 }
      ∧ statusHandler (dispense [] "abc" 0 (InferOutcome.response 503 none)).1 "abc"
        = HttpResult.ok (modelDump { status := "failed", created_at := 0 }) := by
  have h := (dispense_failure_marks_failed [] "abc" 0 503 none "boom"
    (by decide)).1
  exact ⟨h.1, h.2.2⟩

/-- C6: a request failing pydantic validation (volume out of `(0, 50]`
or colour outside the enum) is rejected with the 422 client-error signal
before the handler body runs: the registry is untouched and no entry
appears for the would-be task id. -/
theorem dispense_invalid_rejected (ts : Tasks) (tid : String) (now : ℚ)
    (req : DispenseRequest) (outcome : InferOutcome)
    (hinv : validRequest req = false) :
    dispenseEndpoint ts tid now req outcome
        = (ts, HttpResult.err 422 "validation error")
    ∧ (tasksGet ts tid = none →
        tasksGet (dispenseEndpoint ts tid now req outcome).1 tid = none) := by
  constructor
  · simp [dispenseEndpoint, hinv]
  · intro h
    simpa [dispenseEndpoint, hinv] using h

/-- Witness for C6: `volume_ml = 75` is rejected with 422 and the (empty)
registry stays empty. -/
theorem dispense_invalid_rejected_witness :
    validRequest { mix_id := 1, run_id := 2, colour := "red", volume_ml := 75 }
        = false
    ∧ dispenseEndpoint [] "abc" 0
        { mix_id := 1, run_id := 2, colour := "red", volume_ml := 75 }
        (InferOutcome.response 200 (some 1))
        = ([], HttpResult.err 422 "validation error") := by
  have h : validRequest
      { mix_id := 1, run_id := 2, colour := "red", volume_ml := 75 } = false := by
    simp [validRequest]
    norm_num
  exact ⟨h, (dispense_invalid_rejected [] "abc" 0 _ _ h).1⟩

/-- C1 (what the code actually does at the failing inputs): a non-success
downstream status is surfaced as a generic 500 — the explicitly raised
`HTTPException(502, ...)` is swallowed by the trailing
`except Exception` clause in both `dispense` and `pose_snapshot` — while
downstream timeouts are surfaced as 504 as described. -/
theorem downstream_error_surfaced_as_500 :
    (dispense [] "abc" 0 (InferOutcome.response 503 none)).2 =
      HttpResult.err 500 "Internal error: 502: Phosphobot error: 503"
    ∧ (dispense [] "abc" 0 InferOutcome.timeout).2 =
      HttpResult.err 504 "Timeout calling Phosphobot"
    ∧ (pose_snapshot [] 7 0 (some 1) (VBOutcome.response 503 [])).2.1 =
      HttpResult.err 500 "Vision bridge error: 502: Vision bridge error: 503"
    ∧ (pose_snapshot [] 7 0 (some 1) VBOutcome.timeout).2.1 =
      HttpResult.err 504 "Timeout calling vision bridge" := by
  have hlt : ((1 : ℚ) < 0 + 30) := by norm_num
  refine ⟨?_, by simp [dispense], ?_, ?_⟩
  · have : (dispense [] "abc" 0 (InferOutcome.response 503 none)).2 =
        HttpResult.err 500 ("Internal error: 502: Phosphobot error: " ++ toString 503) := by
      simp [dispense]
    rw [this]
    rfl
  · have : (pose_snapshot [] 7 0 (some 1) (VBOutcome.response 503 [])).2.1 =
        HttpResult.err 500
          ("Vision bridge error: 502: Vision bridge error: " ++ toString 503) := by
      simp [pose_snapshot, wait_for, POSE_WAIT_TIMEOUT, hlt]
    rw [this]
    rfl
  · simp [pose_snapshot, wait_for, POSE_WAIT_TIMEOUT, hlt]

/-! ### Telemetry broadcast and pose waiters -/

/-- C4: a single convergent telemetry event resolves every pending
waiter registered before it exactly once, removes them all from the set,
resolves no id that was not registered, and resolves nothing at all when
every waiter in the set is already done (so an already-resolved waiter
can never be resolved a second time). -/
theorem telemetry_broadcast_resolves_all (TOL : ℚ) (TARGET_POSE : List ℚ)
    (msg : TelemetryMsg) (q : List ℚ) (ws : List Waiter) (ts : Tasks)
    (hj : msg.joints = some q) (hconv : pose_close TOL TARGET_POSE q = true)
    (hnd : (ws.map Waiter.id).Nodup)
    (hpend : ∀ w ∈ ws, w.state = FutState.pending) :
    (∀ w ∈ ws,
      ((zmq_handle_message TOL TARGET_POSE msg ws ts).2.2).count w.id = 1)
    ∧ (zmq_handle_message TOL TARGET_POSE msg ws ts).1 = []
    ∧ (∀ fid : ℕ, fid ∉ ws.map Waiter.id →
        fid ∉ (zmq_handle_message TOL TARGET_POSE msg ws ts).2.2)
    ∧ (∀ (ws2 : List Waiter) (ts2 : Tasks),
        (∀ w ∈ ws2, w.state ≠ FutState.pending) →
        (zmq_handle_message TOL TARGET_POSE msg ws2 ts2).2.2 = []) := by
  have hfil : ws.filter (fun w => decide (w.state = FutState.pending)) = ws :=
    List.filter_eq_self.mpr (fun a ha => by simp [hpend a ha])
  have hres : (zmq_handle_message TOL TARGET_POSE msg ws ts).2.2
      = ws.map Waiter.id := by
    simp [zmq_handle_message, hj, hconv, broadcastWaiters, hfil]
  refine ⟨?_, ?_, ?_, ?_⟩
  · intro w hw
    rw [hres]
    exact List.count_eq_one_of_mem hnd (List.mem_map.mpr ⟨w, hw, rfl⟩)
  · simp [zmq_handle_message, hj, hconv, broadcastWaiters]
    exact hpend
  · intro fid hfid
    rw [hres]
    exact hfid
  · intro ws2 ts2 hdone
    have hempty2 : ws2.filter (fun w => decide (w.state = FutState.pending)) = [] :=
      List.filter_eq_nil.mpr (fun a ha => by simp [hdone a ha])
    simp [zmq_handle_message, hj, hconv, broadcastWaiters, hempty2]

/-- Witness for C4: three pending waiters, a convergent event on target
`[0]` with tolerance `1`; waiter 1 is resolved exactly once, the set is
emptied, an unregistered id 99 is not resolved. -/
theorem telemetry_broadcast_resolves_all_witness :
    ((zmq_handle_message 1 [0] { joints := some [0], status := none }
        [ { id := 1, state := FutState.pending }
        , { id := 2, state := FutState.pending }
        , { id := 3, state := FutState.pending } ] []).2.2).count 1 = 1
    ∧ (zmq_handle_message 1 [0] { joints := some [0], status := none }
        [ { id := 1, state := FutState.pending }
        , { id := 2, state := FutState.pending }
        , { id := 3, state := FutState.pending } ] []).1 = []
    ∧ 99 ∉ (zmq_handle_message 1 [0] { joints := some [0], status := none }
        [ { id := 1, state := FutState.pending }
        , { id := 2, state := FutState.pending }
        , { id := 3, state := FutState.pending } ] []).2.2 := by
  have hconv : pose_close 1 [0] [0] = true := by
    simp [pose_close]
  have h := telemetry_broadcast_resolves_all 1 [0]
    { joints := some [0], status := none } [0]
    [ { id := 1, state := FutState.pending }
    , { id := 2, state := FutState.pending }
    , { id := 3, state := FutState.pending } ] [] rfl hconv
    (by decide) (by decide)
  exact ⟨h.1 { id := 1, state := FutState.pending } (by decide), h.2.1,
    h.2.2.1 99 (by decide)⟩

/-- C7: a pose-wait during which no convergent event resolves the waiter
fails with the 408 pose-timeout error, at exactly the 30-second deadline
`t0 + 30` (not before), and the waiter is no longer in the shared set
afterwards. -/
theorem pose_wait_timeout_removes_waiter (ws : List Waiter) (fid : ℕ)
    (t0 : ℚ) (vb : VBOutcome) :
    (pose_snapshot ws fid t0 none vb).2.1
        = HttpResult.err 408 "Timeout waiting for target pose"
    ∧ (pose_snapshot ws fid t0 none vb).2.2 = t0 + POSE_WAIT_TIMEOUT
    ∧ ∀ w ∈ (pose_snapshot ws fid t0 none vb).1, w.id ≠ fid := by
  refine ⟨by simp [pose_snapshot, wait_for],
          by simp [pose_snapshot, wait_for], ?_⟩
  intro w hw
  simp only [pose_snapshot, wait_for, waiterAdd, waiterDiscard,
    List.mem_filter] at hw
  simpa using hw.2

/-- Witness for C7: with one unrelated waiter (id 5), an unresolved wait
for future 7 started at time 0 ends in 408 at time `0 + 30` with future 7
absent from the set. -/
theorem pose_wait_timeout_removes_waiter_witness :
    (pose_snapshot [{ id := 5, state := FutState.pending }] 7 0 none
        (VBOutcome.response 200 [])).2.1
      = HttpResult.err 408 "Timeout waiting for target pose"
    ∧ (pose_snapshot [{ id := 5, state := FutState.pending }] 7 0 none
        (VBOutcome.response 200 [])).2.2 = 0 + POSE_WAIT_TIMEOUT
    ∧ ∀ w ∈ (pose_snapshot [{ id := 5, state := FutState.pending }] 7 0 none
        (VBOutcome.response 200 [])).1, w.id ≠ 7 :=
  pose_wait_timeout_removes_waiter [{ id := 5, state := FutState.pending }] 7 0
    (VBOutcome.response 200 [])

/-- Helper: the status codes `pose_snapshot` can surface are 408, 500
and 504 only. -/
theorem pose_snapshot_error_codes (ws : List Waiter) (fid : ℕ) (t0 : ℚ)
    (resolution : Option ℚ) (vb : VBOutcome) (c : ℕ) (d : String)
    (h : (pose_snapshot ws fid t0 resolution vb).2.1 = HttpResult.err c d) :
    c = 408 ∨ c = 500 ∨ c = 504 := by
  rcases resolution with _ | t
  · simp [pose_snapshot, wait_for] at h
    exact Or.inl h.1.symm
  · by_cases ht : t < t0 + POSE_WAIT_TIMEOUT
    · rcases vb with ⟨code, body⟩ | _ | emsg
      · by_cases hc : code = 200
        · simp [pose_snapshot, wait_for, ht, hc] at h
        · simp [pose_snapshot, wait_for, ht, hc] at h
          exact Or.inr (Or.inl h.1.symm)
      · simp [pose_snapshot, wait_for, ht] at h
        exact Or.inr (Or.inr h.1.symm)
      · simp [pose_snapshot, wait_for, ht] at h
        exact Or.inr (Or.inl h.1.symm)
    · simp [pose_snapshot, wait_for, ht] at h
      exact Or.inl h.1.symm

/-- C9: the pose-snapshot handler never signals 404 NotFound, never
touches the task registry, and its result is the same whatever the
registry contains — its outcome is independent of whether `cmd_id`
exists, failed, or was evicted. -/
theorem pose_snapshot_ignores_registry (s : ServerState) (fid : ℕ) (t0 : ℚ)
    (resolution : Option ℚ) (vb : VBOutcome) :
    (pose_snapshotS s fid t0 resolution vb).1.tasks = s.tasks
    ∧ (∀ (c : ℕ) (d : String),
        (pose_snapshotS s fid t0 resolution vb).2.1 = HttpResult.err c d →
        c ≠ 404)
    ∧ (∀ ts2 : Tasks,
        (pose_snapshotS { tasks := ts2, waiters := s.waiters } fid t0 resolution vb).2
          = (pose_snapshotS s fid t0 resolution vb).2) := by
  refine ⟨rfl, ?_, fun ts2 => rfl⟩
  intro c d h
  have hcodes := pose_snapshot_error_codes s.waiters fid t0 resolution vb c d h
  omega

/-- Witness for C9 at a registry holding only an already-failed task
"x" and an unresolved wait: the registry is untouched and the surfaced
408 is not 404. -/
theorem pose_snapshot_ignores_registry_witness :
    (pose_snapshotS
        { tasks := [("x", { status := "failed", created_at := 0 })], waiters := [] }
        7 0 none (VBOutcome.response 200 [])).1.tasks
      = [("x", { status := "failed", created_at := 0 })]
    ∧ (408 : ℕ) ≠ 404 := by
  have h := pose_snapshot_ignores_registry
    { tasks := [("x", { status := "failed", created_at := 0 })], waiters := [] }
    7 0 none (VBOutcome.response 200 [])
  exact ⟨h.1, h.2.1 408 "Timeout waiting for target pose"
    (by simp [pose_snapshotS, pose_snapshot, wait_for])⟩

/-! ### Garbage collection -/

/-- C8: the GC sweep evicts every task whose age exceeds the retention
window, whatever its status (including `running`), and a later status
query on the evicted id answers 404 NotFound. -/
theorem gc_evicts_expired (now : ℚ) (ts : Tasks) (ws : List Waiter)
    (tid : String) (st : DispenseStatus)
    (hnd : (ts.map Prod.fst).Nodup)
    (hget : tasksGet ts tid = some st)
    (hexp : now - st.created_at > MAX_TASK_AGE) :
    tasksGet (cleanup_old_tasks now ts ws).1 tid = none
    ∧ statusHandler (cleanup_old_tasks now ts ws).1 tid
        = HttpResult.err 404 ("Task " ++ tid ++ " not found") := by
  have h1 : tasksGet (cleanup_old_tasks now ts ws).1 tid = none := by
    have h := tasksGet_filter_none ts tid st
      (fun kv => decide (¬ now - kv.2.created_at > MAX_TASK_AGE)) hnd hget
      (by simp only [decide_eq_false_iff_not, not_not]; exact hexp)
    simpa [cleanup_old_tasks] using h
  exact ⟨h1, by simp [statusHandler, h1]⟩

/-- Witness for C8: a still-`running` task "abc" created at time 0 is
gone after a sweep at time 4000 (> 3600 window) and its status query
yields 404. -/
theorem gc_evicts_expired_witness :
    tasksGet (cleanup_old_tasks 4000
        [("abc", { status := "running", created_at := 0 })] []).1 "abc" = none
    ∧ statusHandler (cleanup_old_tasks 4000
        [("abc", { status := "running", created_at := 0 })] []).1 "abc"
      = HttpResult.err 404 ("Task " ++ "abc" ++ " not found") :=
  gc_evicts_expired 4000 [("abc", { status := "running", created_at := 0 })] []
    "abc" { status := "running", created_at := 0 }
    (by simp) (by simp [tasksGet]) (by norm_num [MAX_TASK_AGE])

end RobotService
